import Mathlib

/-!
Shallow embedding of the payments engine of the repository
(src/src/domain.rs, src/src/engine/types.rs, src/src/engine/mod.rs).

Modelling conventions:
* Exact decimal amounts (rust_decimal.Decimal, used with up to 4 fractional
  digits) are embedded as integers counting fixed-point units of 10 ^ -4,
  as design note 9 of the spec prescribes for fixed-point reimplementation.
  The engine applies only addition, subtraction and order comparison to
  amounts, and the set of 4-digit decimals with these operations is carried
  isomorphically onto the scaled integers, so nothing is lost.
* ClientId (u16 newtype) and TransactionId (u32 newtype) are embedded as
  naturals; the identifiers are opaque keys, no arithmetic is done on them.
* The two HashMap stores and the set of disputed transaction ids are embedded
  as functions out of the key type; mutation becomes Function.update.
* A Rust method that mutates self and returns Result of Unit and E is embedded
  as a pure function returning the new value paired with Option E, where
  the value none stands for Ok.

Fidelity notes on engine/mod.rs, which is a mid-refactor snapshot and does not
compile as written; the embedding follows the source text literally, resolving
each dangling reference to the declaration the source itself provides:
* The field disputed_transactions of PaymentsEngine is commented out in the
  struct declaration but is still read and written by the live handler code
  (process_dispute_transaction, process_resolve_transaction,
  process_chargeback_transaction), and the HashSet import is live.  The
  embedding keeps the field, as the live handler code requires.
* process_dispute_transaction calls get_deposit_undisputed_mut, which is not
  declared; types.rs declares get_deposit_undisputed with the filter
  dispute == DisputeState::None, and that filter is embedded.  Note that no
  handler ever writes the per-deposit dispute field, so it stays at its
  initial value DisputeState.None for every stored deposit.
* process_withdrawal_transaction and process_chargeback_transaction call
  Balance::remove, the unconditional subtraction declared in domain.rs
  (the question mark the source puts after the call has no effect to embed,
  since Balance::remove is infallible; the fallible variant Balance::try_remove
  is declared in domain.rs but is called by no handler).  Both call sites are
  embedded as the unconditional subtraction that the named method performs.
-/

namespace Payments

/-- Amounts: rust_decimal.Decimal embedded as an exact count of fixed-point
units of 10 ^ -4 (see the module comment). -/
abbrev Amount := ℤ

/-- ClientId newtype over u16, embedded as an opaque natural key. -/
abbrev ClientId := ℕ

/-- TransactionId newtype over u32, embedded as an opaque natural key. -/
abbrev TransactionId := ℕ

/-- domain.rs DisputeState: per-deposit dispute state. -/
inductive DisputeState where
  | None
  | Open
  | ChargedBack
deriving DecidableEq, Repr

/-- domain.rs DomainError. -/
inductive DomainError where
  | InsufficientFunds
deriving DecidableEq, Repr

/-- domain.rs Balance: available and held funds of one account. -/
structure Balance where
  available : Amount
  held : Amount
deriving DecidableEq, Repr

/-- Balance::total: derived, not stored. -/
def Balance.total (b : Balance) : Amount := b.available + b.held

/-- Balance::add: credit funds, increases available. -/
def Balance.add (b : Balance) (amount : Amount) : Balance :=
  { b with available := b.available + amount }

/-- Balance::hold: move funds from available to held. -/
def Balance.hold (b : Balance) (amount : Amount) : Balance :=
  { available := b.available - amount, held := b.held + amount }

/-- Balance::release: move funds from held back to available. -/
def Balance.release (b : Balance) (amount : Amount) : Balance :=
  { available := b.available + amount, held := b.held - amount }

/-- Balance::remove: unconditional debit of available funds. -/
def Balance.remove (b : Balance) (amount : Amount) : Balance :=
  { b with available := b.available - amount }

/-- Balance::try_remove: debit available funds only when they suffice,
otherwise fail with InsufficientFunds and leave the balance unchanged. -/
def Balance.try_remove (b : Balance) (amount : Amount) :
    Balance × Option DomainError :=
  if b.available ≥ amount then
    ({ b with available := b.available - amount }, none)
  else
    (b, some DomainError.InsufficientFunds)

/-- domain.rs Account: a balance plus a lock flag. -/
structure Account where
  balance : Balance
  locked : Bool
deriving DecidableEq, Repr

/-- The derived Default of Account: zero balance, unlocked. -/
def Account.default : Account :=
  { balance := { available := 0, held := 0 }, locked := false }

/-- domain.rs MovementTransaction: payload of deposits and withdrawals. -/
structure MovementTransaction where
  client : ClientId
  tx : TransactionId
  amount : Amount
deriving DecidableEq, Repr

/-- domain.rs DisputeTransaction: payload of the dispute family,
referencing an existing transaction by id, with no amount. -/
structure DisputeTransaction where
  client : ClientId
  disputed_tx : TransactionId
deriving DecidableEq, Repr

/-- domain.rs Deposit: the movement payload plus the mutable dispute state. -/
structure Deposit where
  dispute : DisputeState
  tx : MovementTransaction
deriving DecidableEq, Repr

/-- Deposit::new: the only constructor, pins the dispute state to None. -/
def Deposit.new (client : ClientId) (tx : TransactionId) (amount : Amount) :
    Deposit :=
  { dispute := DisputeState.None,
    tx := { client := client, tx := tx, amount := amount } }

def Deposit.amount (d : Deposit) : Amount := d.tx.amount

def Deposit.client_id (d : Deposit) : ClientId := d.tx.client

def Deposit.transaction_id (d : Deposit) : TransactionId := d.tx.tx

/-- domain.rs Transaction: sum type over the five transaction kinds. -/
inductive Transaction where
  | Deposit (d : Deposit)
  | Withdrawal (w : MovementTransaction)
  | Dispute (t : DisputeTransaction)
  | Resolve (t : DisputeTransaction)
  | Chargeback (t : DisputeTransaction)
deriving DecidableEq, Repr

/-- The client id carried by a transaction. -/
def Transaction.client_id : Transaction → ClientId
  | .Deposit d => d.client_id
  | .Withdrawal w => w.client
  | .Dispute t => t.client
  | .Resolve t => t.client
  | .Chargeback t => t.client

/-- engine/errors.rs EngineError. -/
inductive EngineError where
  | AccountLocked
  | TransactionNotFound
  | TransactionAlreadyDisputed
  | TransactionNotDisputed
  | DomainError (e : DomainError)
deriving DecidableEq, Repr

/-- engine/types.rs DepositHistory: deposits keyed by transaction id. -/
abbrev DepositHistory := TransactionId → Option Deposit

/-- engine/types.rs ClientAccounts: accounts keyed by client id. -/
abbrev ClientAccounts := ClientId → Option Account

/-- DepositHistory::add_deposit: insert or overwrite by transaction id. -/
def add_deposit (h : DepositHistory) (deposit : Deposit) : DepositHistory :=
  Function.update h deposit.transaction_id (some deposit)

/-- DepositHistory::get_deposit: look up by transaction id, returning the
deposit only when it belongs to the given client. -/
def get_deposit (h : DepositHistory) (tx_id : TransactionId)
    (client_id : ClientId) : Option Deposit :=
  match h tx_id with
  | some t => if t.client_id = client_id then some t else none
  | none => none

/-- DepositHistory::get_deposit_undisputed: look up by transaction id,
filtered to dispute state None. -/
def get_deposit_undisputed (h : DepositHistory) (tx_id : TransactionId) :
    Option Deposit :=
  match h tx_id with
  | some t => if t.dispute = DisputeState.None then some t else none
  | none => none

/-- DepositHistory::get_deposit_under_dispute_mut: look up by transaction id,
filtered to dispute state Open.  Declared in types.rs; no live handler calls
it. -/
def get_deposit_under_dispute (h : DepositHistory) (tx_id : TransactionId) :
    Option Deposit :=
  match h tx_id with
  | some t => if t.dispute = DisputeState.Open then some t else none
  | none => none

/-- engine/mod.rs PaymentsEngine state: the account store, the deposit
history, and the set of currently disputed transaction ids (see the fidelity
note in the module comment). -/
structure PaymentsEngine where
  client_accounts : ClientAccounts
  deposit_history : DepositHistory
  disputed_transactions : TransactionId → Bool

/-- PaymentsEngine::new: both stores empty, no disputed transactions. -/
def PaymentsEngine.new : PaymentsEngine :=
  { client_accounts := fun _ => none,
    deposit_history := fun _ => none,
    disputed_transactions := fun _ => false }

/-- The account the engine holds for a client, read as
get_or_create_account_mut would create it: the stored entry, or the default
zero-balance unlocked account when no entry exists. -/
def PaymentsEngine.account (s : PaymentsEngine) (c : ClientId) : Account :=
  (s.client_accounts c).getD Account.default

/-- ClientAccounts::get_or_create_account_mut: the account for the client
(default-created on first access) together with the store in which the entry
now exists. -/
def get_or_create_account_mut (s : PaymentsEngine) (c : ClientId) :
    Account × PaymentsEngine :=
  (s.account c,
    { s with
      client_accounts :=
        Function.update s.client_accounts c (some (s.account c)) })

/-- check_account_eligibility: reject every guarded operation on a locked
account. -/
def check_account_eligibility (account : Account) : Option EngineError :=
  if account.locked then some EngineError.AccountLocked else none

/-- process_deposit_transaction: create the account, apply the lock guard,
credit the amount, and record the deposit in the history. -/
def process_deposit_transaction (s : PaymentsEngine) (transaction : Deposit) :
    PaymentsEngine × Option EngineError :=
  let account := (get_or_create_account_mut s transaction.client_id).1
  let s1 := (get_or_create_account_mut s transaction.client_id).2
  match check_account_eligibility account with
  | some e => (s1, some e)
  | none =>
    let account1 := { account with balance := account.balance.add transaction.amount }
    ({ s1 with
        client_accounts :=
          Function.update s1.client_accounts transaction.client_id (some account1),
        deposit_history := add_deposit s1.deposit_history transaction },
      none)

/-- process_withdrawal_transaction: create the account, apply the lock guard,
then debit through Balance::remove, the unconditional subtraction the source
names (see the fidelity note in the module comment). -/
def process_withdrawal_transaction (s : PaymentsEngine)
    (transaction : MovementTransaction) : PaymentsEngine × Option EngineError :=
  let account := (get_or_create_account_mut s transaction.client).1
  let s1 := (get_or_create_account_mut s transaction.client).2
  match check_account_eligibility account with
  | some e => (s1, some e)
  | none =>
    let account1 := { account with balance := account.balance.remove transaction.amount }
    ({ s1 with
        client_accounts :=
          Function.update s1.client_accounts transaction.client (some account1) },
      none)

/-- process_dispute_transaction: look up the referenced deposit scoped to the
requesting client, check the undisputed filter, then hold the amount and add
the transaction id to the disputed set.  The per-deposit dispute field is not
written. -/
def process_dispute_transaction (s : PaymentsEngine)
    (transaction : DisputeTransaction) : PaymentsEngine × Option EngineError :=
  let account := (get_or_create_account_mut s transaction.client).1
  let s1 := (get_or_create_account_mut s transaction.client).2
  match get_deposit s1.deposit_history transaction.disputed_tx transaction.client with
  | none => (s1, some EngineError.TransactionNotFound)
  | some disputed_tx =>
    match get_deposit_undisputed s1.deposit_history disputed_tx.transaction_id with
    | none => (s1, some EngineError.TransactionAlreadyDisputed)
    | some _ =>
      let account1 := { account with balance := account.balance.hold disputed_tx.amount }
      ({ s1 with
          client_accounts :=
            Function.update s1.client_accounts transaction.client (some account1),
          disputed_transactions :=
            Function.update s1.disputed_transactions disputed_tx.transaction_id true },
        none)

/-- process_resolve_transaction: look up the referenced deposit scoped to the
requesting client, require membership in the disputed set, then release the
amount and remove the transaction id from the set. -/
def process_resolve_transaction (s : PaymentsEngine)
    (transaction : DisputeTransaction) : PaymentsEngine × Option EngineError :=
  let account := (get_or_create_account_mut s transaction.client).1
  let s1 := (get_or_create_account_mut s transaction.client).2
  match get_deposit s1.deposit_history transaction.disputed_tx transaction.client with
  | none => (s1, some EngineError.TransactionNotFound)
  | some disputed_tx =>
    if s1.disputed_transactions disputed_tx.transaction_id then
      let account1 := { account with balance := account.balance.release disputed_tx.amount }
      ({ s1 with
          client_accounts :=
            Function.update s1.client_accounts transaction.client (some account1),
          disputed_transactions :=
            Function.update s1.disputed_transactions disputed_tx.transaction_id false },
        none)
    else (s1, some EngineError.TransactionNotDisputed)

/-- process_chargeback_transaction: look up the referenced deposit scoped to
the requesting client, require membership in the disputed set, then release
the amount, debit it through the unconditional Balance::remove, lock the
account, and remove the transaction id from the set. -/
def process_chargeback_transaction (s : PaymentsEngine)
    (transaction : DisputeTransaction) : PaymentsEngine × Option EngineError :=
  let account := (get_or_create_account_mut s transaction.client).1
  let s1 := (get_or_create_account_mut s transaction.client).2
  match get_deposit s1.deposit_history transaction.disputed_tx transaction.client with
  | none => (s1, some EngineError.TransactionNotFound)
  | some disputed_tx =>
    if s1.disputed_transactions disputed_tx.transaction_id then
      let account1 :=
        { account with
          balance := (account.balance.release disputed_tx.amount).remove disputed_tx.amount,
          locked := true }
      ({ s1 with
          client_accounts :=
            Function.update s1.client_accounts transaction.client (some account1),
          disputed_transactions :=
            Function.update s1.disputed_transactions disputed_tx.transaction_id false },
        none)
    else (s1, some EngineError.TransactionNotDisputed)

/-- process_transaction: dispatch on the transaction kind. -/
def process_transaction (s : PaymentsEngine) :
    Transaction → PaymentsEngine × Option EngineError
  | .Deposit d => process_deposit_transaction s d
  | .Withdrawal w => process_withdrawal_transaction s w
  | .Dispute t => process_dispute_transaction s t
  | .Resolve t => process_resolve_transaction s t
  | .Chargeback t => process_chargeback_transaction s t

/-- process_transactions: apply process_transaction to each element in input
order, suppressing every error. -/
def process_transactions (s : PaymentsEngine) : List Transaction → PaymentsEngine
  | [] => s
  | t :: ts => process_transactions (process_transaction s t).1 ts

/-- Example run: a single deposit of 100 for client 1. -/
def depositRun : PaymentsEngine :=
  process_transactions PaymentsEngine.new [Transaction.Deposit (Deposit.new 1 1 100)]

/-- Example run: a deposit of 100 for client 1, then a dispute of it. -/
def disputedRun : PaymentsEngine :=
  process_transactions PaymentsEngine.new
    [Transaction.Deposit (Deposit.new 1 1 100), Transaction.Dispute ⟨1, 1⟩]

/-- Example run: a deposit of 100 for client 1, its dispute, and its
chargeback; the chargeback succeeds and locks the account. -/
def chargebackedRun : PaymentsEngine :=
  process_transactions PaymentsEngine.new
    [Transaction.Deposit (Deposit.new 1 1 100), Transaction.Dispute ⟨1, 1⟩,
     Transaction.Chargeback ⟨1, 1⟩]

/-- Example run: deposit, dispute, chargeback, and then a second dispute of
the same transaction id. -/
def redisputedRun : PaymentsEngine :=
  process_transactions PaymentsEngine.new
    [Transaction.Deposit (Deposit.new 1 1 100), Transaction.Dispute ⟨1, 1⟩,
     Transaction.Chargeback ⟨1, 1⟩, Transaction.Dispute ⟨1, 1⟩]

/-- Example run reaching a locked account that still has an undisputed
deposit (tx 2 of 50): deposits of 100 and 50, dispute of tx 1, chargeback of
tx 1. The resulting account of client 1 is (available 50, held 0, locked). -/
def lockedRun : PaymentsEngine :=
  process_transactions PaymentsEngine.new
    [Transaction.Deposit (Deposit.new 1 1 100), Transaction.Deposit (Deposit.new 1 2 50),
     Transaction.Dispute ⟨1, 1⟩, Transaction.Chargeback ⟨1, 1⟩]

/-- A locked account is necessarily a stored entry: the default account used
for lazily created entries is unlocked. -/
theorem account_locked_exists {s : PaymentsEngine} {c : ClientId}
    (h : (s.account c).locked = true) :
    s.client_accounts c = some (s.account c) := by
  unfold PaymentsEngine.account at h ⊢
  cases hc : s.client_accounts c with
  | none => rw [hc] at h; simp [Account.default] at h
  | some a => rfl

/-- Every handler first materializes the account entry of the requesting
client and afterwards only ever rewrites that same entry: the resulting
account store is a single-point update of the original. -/
theorem process_accounts_shape (s : PaymentsEngine) (t : Transaction) :
    ∃ a : Account, (process_transaction s t).1.client_accounts
      = Function.update s.client_accounts t.client_id (some a) := by
  cases t with
  | Deposit d =>
      simp only [process_transaction, process_deposit_transaction,
        get_or_create_account_mut, check_account_eligibility, Transaction.client_id]
      split
      · exact ⟨_, rfl⟩
      · exact ⟨_, by rw [Function.update_idem]⟩
  | Withdrawal w =>
      simp only [process_transaction, process_withdrawal_transaction,
        get_or_create_account_mut, check_account_eligibility, Transaction.client_id]
      split
      · exact ⟨_, rfl⟩
      · exact ⟨_, by rw [Function.update_idem]⟩
  | Dispute tr =>
      simp only [process_transaction, process_dispute_transaction,
        get_or_create_account_mut, Transaction.client_id]
      split
      · exact ⟨_, rfl⟩
      · split
        · exact ⟨_, rfl⟩
        · exact ⟨_, by rw [Function.update_idem]⟩
  | Resolve tr =>
      simp only [process_transaction, process_resolve_transaction,
        get_or_create_account_mut, Transaction.client_id]
      split
      · exact ⟨_, rfl⟩
      · split
        · exact ⟨_, by rw [Function.update_idem]⟩
        · exact ⟨_, rfl⟩
  | Chargeback tr =>
      simp only [process_transaction, process_chargeback_transaction,
        get_or_create_account_mut, Transaction.client_id]
      split
      · exact ⟨_, rfl⟩
      · split
        · exact ⟨_, by rw [Function.update_idem]⟩
        · exact ⟨_, rfl⟩

/-- On every error return, the state handed back is exactly the input state
with the account entry of the requesting client materialized (its stored
value when present, the default account otherwise). -/
theorem process_error_frame (s : PaymentsEngine) (t : Transaction)
    (s' : PaymentsEngine) (e : EngineError)
    (h : process_transaction s t = (s', some e)) :
    s' = { s with
      client_accounts :=
        Function.update s.client_accounts t.client_id
          (some (s.account t.client_id)) } := by
  cases t with
  | Deposit d =>
      simp only [process_transaction, process_deposit_transaction,
        get_or_create_account_mut, check_account_eligibility] at h
      split at h
      · rw [Prod.mk.injEq] at h; exact h.1.symm
      · simp at h
  | Withdrawal w =>
      simp only [process_transaction, process_withdrawal_transaction,
        get_or_create_account_mut, check_account_eligibility] at h
      split at h
      · rw [Prod.mk.injEq] at h; exact h.1.symm
      · simp at h
  | Dispute tr =>
      simp only [process_transaction, process_dispute_transaction,
        get_or_create_account_mut] at h
      split at h
      · rw [Prod.mk.injEq] at h; exact h.1.symm
      · split at h
        · rw [Prod.mk.injEq] at h; exact h.1.symm
        · simp at h
  | Resolve tr =>
      simp only [process_transaction, process_resolve_transaction,
        get_or_create_account_mut] at h
      split at h
      · rw [Prod.mk.injEq] at h; exact h.1.symm
      · split at h
        · simp at h
        · rw [Prod.mk.injEq] at h; exact h.1.symm
  | Chargeback tr =>
      simp only [process_transaction, process_chargeback_transaction,
        get_or_create_account_mut] at h
      split at h
      · rw [Prod.mk.injEq] at h; exact h.1.symm
      · split at h
        · simp at h
        · rw [Prod.mk.injEq] at h; exact h.1.symm

/-- Single-step lock monotonicity: no handler ever writes false into the
locked flag. -/
theorem locked_mono_step (s : PaymentsEngine) (t : Transaction) (c : ClientId)
    (h : (s.account c).locked = true) :
    ((process_transaction s t).1.account c).locked = true := by
  by_cases hc : c = t.client_id
  · subst hc
    cases t with
    | Deposit d =>
        simp only [Transaction.client_id] at h ⊢
        simp only [process_transaction, process_deposit_transaction,
          get_or_create_account_mut, check_account_eligibility]
        split
        · simpa [PaymentsEngine.account, Function.update_same] using h
        · simpa [PaymentsEngine.account, Function.update_idem,
            Function.update_same, Balance.add] using h
    | Withdrawal w =>
        simp only [Transaction.client_id] at h ⊢
        simp only [process_transaction, process_withdrawal_transaction,
          get_or_create_account_mut, check_account_eligibility]
        split
        · simpa [PaymentsEngine.account, Function.update_same] using h
        · simpa [PaymentsEngine.account, Function.update_idem,
            Function.update_same, Balance.remove] using h
    | Dispute tr =>
        simp only [Transaction.client_id] at h ⊢
        simp only [process_transaction, process_dispute_transaction,
          get_or_create_account_mut]
        split
        · simpa [PaymentsEngine.account, Function.update_same] using h
        · split
          · simpa [PaymentsEngine.account, Function.update_same] using h
          · simpa [PaymentsEngine.account, Function.update_idem,
              Function.update_same, Balance.hold] using h
    | Resolve tr =>
        simp only [Transaction.client_id] at h ⊢
        simp only [process_transaction, process_resolve_transaction,
          get_or_create_account_mut]
        split
        · simpa [PaymentsEngine.account, Function.update_same] using h
        · split
          · simpa [PaymentsEngine.account, Function.update_idem,
              Function.update_same, Balance.release] using h
          · simpa [PaymentsEngine.account, Function.update_same] using h
    | Chargeback tr =>
        simp only [Transaction.client_id] at h ⊢
        simp only [process_transaction, process_chargeback_transaction,
          get_or_create_account_mut]
        split
        · simpa [PaymentsEngine.account, Function.update_same] using h
        · split
          · simp [PaymentsEngine.account, Function.update_idem,
              Function.update_same]
          · simpa [PaymentsEngine.account, Function.update_same] using h
  · obtain ⟨a, ha⟩ := process_accounts_shape s t
    unfold PaymentsEngine.account
    rw [ha, Function.update_noteq hc]
    exact h

/-- Lock monotonicity along a whole run. -/
theorem locked_mono_trace (s : PaymentsEngine) (l : List Transaction)
    (c : ClientId) (h : (s.account c).locked = true) :
    ((process_transactions s l).account c).locked = true := by
  induction l generalizing s with
  | nil => exact h
  | cons t ts ih => exact ih _ (locked_mono_step s t c h)

/-- Releasing the held amount undoes the corresponding hold exactly. -/
theorem release_hold (b : Balance) (a : Amount) : (b.hold a).release a = b := by
  cases b
  simp only [Balance.hold, Balance.release, Balance.mk.injEq]
  constructor <;> ring

/-- Claim C1: the claim states that after a successful Chargeback the
ChargedBack state is terminal, so every later Dispute of that transaction id
fails without mutating balances.  The code violates this: the handlers never
write the per-deposit dispute field, so after the chargeback below (which
zeroed and locked the account) a second Dispute of the same transaction id
still passes the undisputed filter, succeeds, and holds the amount again. -/
theorem redispute_after_chargeback_succeeds :
    chargebackedRun.account 1
      = { balance := { available := 0, held := 0 }, locked := true } ∧
    (process_transaction chargebackedRun (Transaction.Dispute ⟨1, 1⟩)).2 = none ∧
    ((process_transaction chargebackedRun (Transaction.Dispute ⟨1, 1⟩)).1.account 1).balance
      = { available := -100, held := 100 } := by decide

/-- Claim C2: the claim states that a successful Dispute moves the deposit
state to Open, so a deposit that is currently disputed cannot be disputed a
second time.  The code violates this: the first successful dispute leaves the
stored dispute field at None, and a second Dispute of the same transaction
succeeds and holds the amount again (held reaches 200 instead of 100). -/
theorem double_dispute_succeeds :
    (disputedRun.account 1).balance = { available := 0, held := 100 } ∧
    (disputedRun.deposit_history 1).map Deposit.dispute = some DisputeState.None ∧
    (process_transaction disputedRun (Transaction.Dispute ⟨1, 1⟩)).2 = none ∧
    ((process_transaction disputedRun (Transaction.Dispute ⟨1, 1⟩)).1.account 1).balance
      = { available := -100, held := 200 } := by decide

/-- Claim C3: the claim states that Resolve succeeds only for a deposit that
is currently in dispute state Open.  The code violates this: in the state
below the stored deposit was charged back (so per the spec it is terminal,
and its recorded dispute field is in fact still None, never Open), yet a
Resolve of it succeeds and releases funds, because the handler consults the
separate disputed set instead of the per-deposit state. -/
theorem resolve_succeeds_without_open_state :
    redisputedRun.account 1
      = { balance := { available := -100, held := 100 }, locked := true } ∧
    (redisputedRun.deposit_history 1).map Deposit.dispute = some DisputeState.None ∧
    (process_transaction redisputedRun (Transaction.Resolve ⟨1, 1⟩)).2 = none ∧
    ((process_transaction redisputedRun (Transaction.Resolve ⟨1, 1⟩)).1.account 1).balance
      = { available := 0, held := 0 } := by decide

/-- Claim C4: the claim states that a withdrawal with available < amount
fails with InsufficientFunds and leaves the balance unchanged.  The code
violates this: the handler calls the unconditional Balance::remove, so a
withdrawal of 50 from a fresh zero account succeeds and leaves available at
-50.  Balance::try_remove, which the claim describes and which is declared
in domain.rs, does reject exactly as claimed, but no handler calls it. -/
theorem withdrawal_overdraw_succeeds :
    Balance.try_remove { available := 0, held := 0 } 50
      = ({ available := 0, held := 0 }, some DomainError.InsufficientFunds) ∧
    (process_transaction PaymentsEngine.new (Transaction.Withdrawal ⟨1, 1, 50⟩)).2 = none ∧
    ((process_transaction PaymentsEngine.new (Transaction.Withdrawal ⟨1, 1, 50⟩)).1.account 1).balance
      = { available := -50, held := 0 } := by decide

/-- Claim C5 counterexample: a failing Dispute does change the engine state
as a whole, because the account entry of the requesting client is created
before the lookup fails, so the state is not exactly the state before the
call. -/
theorem failing_dispute_changes_state :
    (process_transaction PaymentsEngine.new (Transaction.Dispute ⟨1, 99⟩)).2
      = some EngineError.TransactionNotFound ∧
    (process_transaction PaymentsEngine.new (Transaction.Dispute ⟨1, 99⟩)).1.client_accounts 1
      ≠ PaymentsEngine.new.client_accounts 1 := by decide

/-- Claim C5 (amended): when process returns an error, the deposit ledger
(hence every dispute state), the disputed set, every already existing
account entry, and the entry of every other client are exactly as before;
the only possible change is that the account entry of the requesting client
is materialized (its old value when present, the default zero-balance
unlocked account otherwise). -/
theorem error_atomicity_up_to_account_creation :
    ∀ (s : PaymentsEngine) (t : Transaction) (s' : PaymentsEngine) (e : EngineError),
      process_transaction s t = (s', some e) →
      s'.deposit_history = s.deposit_history ∧
      s'.disputed_transactions = s.disputed_transactions ∧
      (∀ c : ClientId, s.client_accounts c ≠ none →
        s'.client_accounts c = s.client_accounts c) ∧
      (∀ c : ClientId, c ≠ t.client_id →
        s'.client_accounts c = s.client_accounts c) ∧
      s'.client_accounts t.client_id = some (s.account t.client_id) := by
  intro s t s' e h
  have hf := process_error_frame s t s' e h
  subst hf
  refine ⟨rfl, rfl, ?_, ?_, ?_⟩
  · intro c hc
    by_cases hk : c = t.client_id
    · subst hk
      cases hcc : s.client_accounts t.client_id with
      | none => exact absurd hcc hc
      | some a => simp [Function.update_same, PaymentsEngine.account, hcc]
    · simp [Function.update_noteq hk]
  · intro c hk
    simp [Function.update_noteq hk]
  · simp [Function.update_same]

theorem error_atomicity_up_to_account_creation_witness :
    (process_transaction PaymentsEngine.new (Transaction.Dispute ⟨1, 99⟩)).1.deposit_history
      = PaymentsEngine.new.deposit_history ∧
    (process_transaction PaymentsEngine.new (Transaction.Dispute ⟨1, 99⟩)).1.disputed_transactions
      = PaymentsEngine.new.disputed_transactions ∧
    (process_transaction PaymentsEngine.new (Transaction.Dispute ⟨1, 99⟩)).1.client_accounts 2
      = PaymentsEngine.new.client_accounts 2 :=
  let h := error_atomicity_up_to_account_creation PaymentsEngine.new
    (Transaction.Dispute ⟨1, 99⟩)
    (process_transaction PaymentsEngine.new (Transaction.Dispute ⟨1, 99⟩)).1
    EngineError.TransactionNotFound rfl
  ⟨h.1, h.2.1, h.2.2.2.1 2 (by decide)⟩

/-- Claim C6: Deposit and Withdrawal on a locked account fail with
AccountLocked and leave the engine state (in particular the balance)
unchanged, while Dispute, Resolve and Chargeback are not subject to the
lock guard and can succeed on a locked account, witnessed on a concrete
locked state with an undisputed deposit left. -/
theorem lock_guard_scope :
    (∀ (s : PaymentsEngine) (d : Deposit), (s.account d.client_id).locked = true →
        process_transaction s (Transaction.Deposit d)
          = (s, some EngineError.AccountLocked)) ∧
    (∀ (s : PaymentsEngine) (w : MovementTransaction), (s.account w.client).locked = true →
        process_transaction s (Transaction.Withdrawal w)
          = (s, some EngineError.AccountLocked)) ∧
    ((lockedRun.account 1).locked = true ∧
      (process_transaction lockedRun (Transaction.Dispute ⟨1, 2⟩)).2 = none ∧
      (process_transaction (process_transactions lockedRun [Transaction.Dispute ⟨1, 2⟩])
          (Transaction.Resolve ⟨1, 2⟩)).2 = none ∧
      (process_transaction (process_transactions lockedRun [Transaction.Dispute ⟨1, 2⟩])
          (Transaction.Chargeback ⟨1, 2⟩)).2 = none) := by
  refine ⟨?_, ?_, by decide⟩
  · intro s d h
    have hs := account_locked_exists h
    show process_deposit_transaction s d = _
    unfold process_deposit_transaction get_or_create_account_mut check_account_eligibility
    dsimp only
    rw [if_pos h]
    dsimp only
    rw [Prod.mk.injEq]
    refine ⟨?_, rfl⟩
    rw [← hs, Function.update_eq_self]
  · intro s w h
    have hs := account_locked_exists h
    show process_withdrawal_transaction s w = _
    unfold process_withdrawal_transaction get_or_create_account_mut check_account_eligibility
    dsimp only
    rw [if_pos h]
    dsimp only
    rw [Prod.mk.injEq]
    refine ⟨?_, rfl⟩
    rw [← hs, Function.update_eq_self]

theorem lock_guard_scope_witness :
    process_transaction lockedRun (Transaction.Deposit (Deposit.new 1 3 10))
      = (lockedRun, some EngineError.AccountLocked) ∧
    process_transaction lockedRun (Transaction.Withdrawal ⟨1, 3, 10⟩)
      = (lockedRun, some EngineError.AccountLocked) :=
  ⟨lock_guard_scope.1 lockedRun (Deposit.new 1 3 10) (by decide),
   lock_guard_scope.2.1 lockedRun ⟨1, 3, 10⟩ (by decide)⟩

/-- Claim C7: for every account (at any state, in particular any state
reachable from the fresh engine) the total is by construction available plus
held (the implementation derives it, never stores it); hold and release
leave the total unchanged, and add and remove change it by exactly the
amount. -/
theorem total_is_available_plus_held :
    (∀ b : Balance, b.total = b.available + b.held) ∧
    (∀ (b : Balance) (a : Amount), (b.hold a).total = b.total) ∧
    (∀ (b : Balance) (a : Amount), (b.release a).total = b.total) ∧
    (∀ (b : Balance) (a : Amount), (b.add a).total = b.total + a) ∧
    (∀ (b : Balance) (a : Amount), (b.remove a).total = b.total - a) ∧
    (∀ (l : List Transaction) (c : ClientId),
      ((process_transactions PaymentsEngine.new l).account c).balance.total
        = ((process_transactions PaymentsEngine.new l).account c).balance.available
          + ((process_transactions PaymentsEngine.new l).account c).balance.held) := by
  refine ⟨fun b => rfl, ?_, ?_, ?_, ?_, fun l c => rfl⟩ <;>
    intro b a <;>
    simp only [Balance.total, Balance.hold, Balance.release, Balance.add,
      Balance.remove] <;>
    ring

/-- Claim C8: the locked flag is monotonic: from any state in which the
account of a client is locked, processing one more transaction, or any
remaining run of transactions, leaves it locked. -/
theorem locked_flag_monotonic :
    ∀ (s : PaymentsEngine) (c : ClientId), (s.account c).locked = true →
      (∀ t : Transaction, ((process_transaction s t).1.account c).locked = true) ∧
      (∀ l : List Transaction, ((process_transactions s l).account c).locked = true) :=
  fun s c h =>
    ⟨fun t => locked_mono_step s t c h, fun l => locked_mono_trace s l c h⟩

theorem locked_flag_monotonic_witness :
    ((process_transactions lockedRun
        [Transaction.Deposit (Deposit.new 1 3 10), Transaction.Withdrawal ⟨1, 4, 5⟩,
         Transaction.Dispute ⟨1, 2⟩, Transaction.Resolve ⟨1, 2⟩]).account 1).locked
      = true :=
  (locked_flag_monotonic lockedRun 1 (by decide)).2
    [Transaction.Deposit (Deposit.new 1 3 10), Transaction.Withdrawal ⟨1, 4, 5⟩,
     Transaction.Dispute ⟨1, 2⟩, Transaction.Resolve ⟨1, 2⟩]

/-- Claim C9: a successful Dispute immediately followed by a successful
Resolve of the same transaction id restores the balance (available and
held) of every account exactly to its pre-dispute value. -/
theorem dispute_resolve_roundtrip :
    ∀ (s s1 s2 : PaymentsEngine) (tr : DisputeTransaction),
      process_transaction s (Transaction.Dispute tr) = (s1, none) →
      process_transaction s1 (Transaction.Resolve tr) = (s2, none) →
      ∀ c : ClientId, (s2.account c).balance = (s.account c).balance := by
  intro s s1 s2 tr h1 h2 c
  simp only [process_transaction, process_dispute_transaction,
    get_or_create_account_mut] at h1
  rcases hd : get_deposit s.deposit_history tr.disputed_tx tr.client with _ | d
  · rw [hd] at h1
    simp at h1
  · rw [hd] at h1
    dsimp only at h1
    rcases hu : get_deposit_undisputed s.deposit_history d.transaction_id with _ | d2
    · rw [hu] at h1
      simp at h1
    · rw [hu] at h1
      dsimp only at h1
      rw [Prod.mk.injEq] at h1
      obtain ⟨hs1, -⟩ := h1
      subst hs1
      simp only [process_transaction, process_resolve_transaction,
        get_or_create_account_mut] at h2
      rw [hd] at h2
      dsimp only at h2
      rw [Function.update_same] at h2
      rw [if_pos rfl] at h2
      rw [Prod.mk.injEq] at h2
      obtain ⟨hs2, -⟩ := h2
      subst hs2
      by_cases hc : c = tr.client
      · subst hc
        simp only [PaymentsEngine.account, Function.update_idem,
          Function.update_same, Option.getD_some]
        exact release_hold _ _
      · simp only [PaymentsEngine.account, Function.update_idem,
          Function.update_noteq hc]

theorem dispute_resolve_roundtrip_witness :
    ((process_transaction
        (process_transaction depositRun (Transaction.Dispute ⟨1, 1⟩)).1
        (Transaction.Resolve ⟨1, 1⟩)).1.account 1).balance
      = (depositRun.account 1).balance :=
  dispute_resolve_roundtrip depositRun
    (process_transaction depositRun (Transaction.Dispute ⟨1, 1⟩)).1
    (process_transaction
      (process_transaction depositRun (Transaction.Dispute ⟨1, 1⟩)).1
      (Transaction.Resolve ⟨1, 1⟩)).1
    ⟨1, 1⟩ rfl rfl 1

/-- Claim C10: processing any transaction materializes the account entry of
the requesting client: afterwards the entry exists; when the transaction
failed it is exactly the previous account, which is the default zero-balance
unlocked account when none existed; and the entry of every other client is
untouched. -/
theorem failed_transactions_create_accounts :
    ∀ (s : PaymentsEngine) (t : Transaction),
      ((process_transaction s t).1.client_accounts t.client_id).isSome = true ∧
      ((process_transaction s t).2.isSome = true →
        (process_transaction s t).1.client_accounts t.client_id
          = some (s.account t.client_id)) ∧
      (∀ c : ClientId, c ≠ t.client_id →
        (process_transaction s t).1.client_accounts c = s.client_accounts c) := by
  intro s t
  obtain ⟨a, ha⟩ := process_accounts_shape s t
  refine ⟨?_, ?_, ?_⟩
  · rw [ha, Function.update_same]
    rfl
  · intro he
    cases hp : (process_transaction s t).2 with
    | none => rw [hp] at he; simp at he
    | some e =>
        have hf := process_error_frame s t (process_transaction s t).1 e ?_
        · rw [hf]
          simp [Function.update_same]
        · rw [← hp]
  · intro c hc
    rw [ha, Function.update_noteq hc]

theorem failed_transactions_create_accounts_witness :
    (process_transaction PaymentsEngine.new (Transaction.Dispute ⟨1, 99⟩)).1.client_accounts 1
      = some (PaymentsEngine.new.account 1) ∧
    (process_transaction PaymentsEngine.new (Transaction.Dispute ⟨1, 99⟩)).1.client_accounts 2
      = PaymentsEngine.new.client_accounts 2 :=
  ⟨(failed_transactions_create_accounts PaymentsEngine.new
      (Transaction.Dispute ⟨1, 99⟩)).2.1 (by decide),
   (failed_transactions_create_accounts PaymentsEngine.new
      (Transaction.Dispute ⟨1, 99⟩)).2.2 2 (by decide)⟩

end Payments
